import Mathlib

/-!
Verification development for `paasta_tools/chronos_tools.py`.

The file shallowly embeds the Chronos job-configuration logic of the source
module: field accessors with Python defaulting, the field-by-field checks,
`validate`, `format_chronos_job_dict`, `create_complete_config`, `get_job_id`
and `lookup_chronos_jobs`.  External collaborators (the `isodate` library,
Python's `re` module, and the shared `InstanceConfig` base class that lives
outside this module) are modelled explicitly and marked as such in their
doc comments.
-/

/-- Python values as they occur in a Chronos job `config_dict`.
`bool` is kept separate from `int` even though Python's `bool` is a subclass
of `int`; the subclass relation is reflected where the source relies on it
(`isinstance(retries, int)`). -/
inductive PyVal where
  | str (s : String)
  | int (n : Int)
  | bool (b : Bool)
  | none
  | list (xs : List PyVal)

/-- Python `dict.get(key)`: the first binding of `key`, if any. -/
def dictGet (d : List (String × PyVal)) (k : String) : Option PyVal :=
  (d.find? (fun kv => kv.1 = k)).map (fun kv => kv.2)

/-- Python `dict.get(key, default)`. -/
def dictGetD (d : List (String × PyVal)) (k : String) (v : PyVal) : PyVal :=
  (dictGet d k).getD v

/-- Python `'sep'.join(xs)`. -/
def joinWith (sep : String) : List String → String
  | [] => ""
  | [s] => s
  | s :: rest => s ++ sep ++ joinWith sep rest

/-- Python `str.split(sep)` for a one-character separator: every occurrence
of the separator splits, empty pieces are kept, `"".split(sep) == ['']`. -/
def splitOnChar (sep : Char) : List Char → List (List Char)
  | [] => [[]]
  | c :: cs =>
    if c = sep then [] :: splitOnChar sep cs
    else
      match splitOnChar sep cs with
      | [] => [[c]]
      | h :: t => (c :: h) :: t

/-- Numeric value of a decimal digit character. -/
def digitVal (c : Char) : Nat := c.toNat - 48

/-- Leading run of decimal digits of a character list, with the remainder. -/
def takeDigits : List Char → List Char × List Char
  | [] => ([], [])
  | c :: cs =>
    if c.isDigit then
      match takeDigits cs with
      | (d, r) => (c :: d, r)
    else ([], c :: cs)

/-- Consume `[0-9]+([,.][0-9]+)?` (a number as accepted by the `isodate`
duration regex); `none` when there is no leading digit.  When a decimal
separator is not followed by digits the fraction is left unconsumed, exactly
as the regex would leave it for the following (failing) designator test. -/
def takeNumber (cs : List Char) : Option (List Char) :=
  match takeDigits cs with
  | ([], _) => Option.none
  | (_ :: _, rest) =>
    match rest with
    | c :: rest2 =>
      if c = ',' || c = '.' then
        match takeDigits rest2 with
        | ([], _) => some rest
        | (_ :: _, rest3) => some rest3
      else some rest
    | [] => some []

/-- Drop elements of `allowed` up to and including the designator `d`;
`none` when `d` does not occur. -/
def dropUntil : List Char → Char → Option (List Char)
  | [], _ => Option.none
  | a :: rest, d => if a = d then some rest else dropUntil rest d

/-- Consume a sequence of `number designator` groups whose designators are
drawn, in order and without repetition, from `allowed`; stops at the first
position without a leading digit and returns the remainder.  This is the
deterministic reading of the ordered optional groups of the `isodate`
duration regex: any digits present must be absorbed by the group named by
the designator that follows them. -/
def unitsLoop (fuel : Nat) (allowed : List Char) (cs : List Char) : Option (List Char) :=
  match cs with
  | [] => some []
  | c :: _ =>
    if c.isDigit then
      match fuel with
      | 0 => Option.none
      | fuel' + 1 =>
        match takeNumber cs with
        | Option.none => Option.none
        | some rest =>
          match rest with
          | d :: rest2 =>
            match dropUntil allowed d with
            | Option.none => Option.none
            | some allowed2 => unitsLoop fuel' allowed2 rest2
          | [] => Option.none
    else some cs

/-- Python word character, as used by the regex lookahead `(?!\b)`. -/
def isWordChar (c : Char) : Bool := c.isAlphanum || c = '_'

/-- Body of an ISO-8601 duration after the optional sign: `P` followed by a
non-boundary character, date designators `Y M W D`, then optionally `T` and
time designators `H M S`. -/
def duration_body (cs : List Char) : Bool :=
  match cs with
  | 'P' :: rest =>
    (match rest with
     | [] => false
     | c :: _ => isWordChar c) &&
    (match unitsLoop rest.length ['Y', 'M', 'W', 'D'] rest with
     | Option.none => false
     | some [] => true
     | some ('T' :: tr) =>
       (match unitsLoop tr.length ['H', 'M', 'S'] tr with
        | some [] => true
        | _ => false)
     | some _ => false)
  | _ => false

/-- Modelled from the external `isodate` library (not part of this
repository): success of `isodate.parse_duration`, which matches the input
against the ISO-8601 period regex `[+-]?P(?!\b)(nY)?(nM)?(nW)?(nD)?(T(nH)?(nM)?(nS)?)?`
and raises `ISO8601Error` when the regex does not match. -/
def parse_duration (s : String) : Bool :=
  match s.data with
  | '+' :: rest => duration_body rest
  | '-' :: rest => duration_body rest
  | cs => duration_body cs

/-- The result of `isodate.parse_datetime`, reduced to the only attribute the
source consults: the timezone information, `none` for a naive datetime. -/
structure IsoDatetime where
  tzinfo : Option Int

/-- Python `hasattr(dt, 'tzinfo')` for a `datetime` instance: the attribute
`tzinfo` exists on every `datetime` object (it is merely `None` when the
datetime is naive), so this is identically `true`. -/
def hasattr_tzinfo (_dt : IsoDatetime) : Bool := true

/-- Modelled from the external `isodate` library: a timezone offset suffix of
a time string — empty (naive), `Z`, or `±HH` / `±HH:MM`. -/
def parse_tz_offset (sign : Int) : List Char → Option (Option Int)
  | [h1, h2] =>
    if h1.isDigit && h2.isDigit then
      some (some (sign * Int.ofNat (60 * (10 * digitVal h1 + digitVal h2))))
    else Option.none
  | [h1, h2, ':', m1, m2] =>
    if h1.isDigit && h2.isDigit && m1.isDigit && m2.isDigit then
      some (some (sign * Int.ofNat (60 * (10 * digitVal h1 + digitVal h2) + (10 * digitVal m1 + digitVal m2))))
    else Option.none
  | _ => Option.none

/-- Modelled from the external `isodate` library: the timezone designator at
the end of an ISO-8601 time. -/
def parse_tz : List Char → Option (Option Int)
  | [] => some Option.none
  | ['Z'] => some (some 0)
  | '+' :: rest => parse_tz_offset 1 rest
  | '-' :: rest => parse_tz_offset (-1) rest
  | _ => Option.none

/-- Modelled from the external `isodate` library, restricted to the extended
ISO-8601 date format `YYYY-MM-DD` used throughout this development. -/
def parse_date (cs : List Char) : Bool :=
  match cs with
  | [y1, y2, y3, y4, '-', m1, m2, '-', d1, d2] =>
    (y1.isDigit && y2.isDigit && y3.isDigit && y4.isDigit &&
     m1.isDigit && m2.isDigit && d1.isDigit && d2.isDigit) &&
    (let mv := 10 * digitVal m1 + digitVal m2
     let dv := 10 * digitVal d1 + digitVal d2
     decide (1 ≤ mv) && decide (mv ≤ 12) && decide (1 ≤ dv) && decide (dv ≤ 31))
  | _ => false

/-- Modelled from the external `isodate` library, restricted to the extended
ISO-8601 time format `HH:MM:SS` with an optional timezone designator. -/
def parse_time (cs : List Char) : Option (Option Int) :=
  match cs with
  | h1 :: h2 :: ':' :: m1 :: m2 :: ':' :: s1 :: s2 :: rest =>
    if h1.isDigit && h2.isDigit && m1.isDigit && m2.isDigit && s1.isDigit && s2.isDigit &&
       decide (10 * digitVal h1 + digitVal h2 ≤ 23) &&
       decide (10 * digitVal m1 + digitVal m2 ≤ 59) &&
       decide (10 * digitVal s1 + digitVal s2 ≤ 60) then
      parse_tz rest
    else Option.none
  | _ => Option.none

/-- Modelled from the external `isodate` library: `isodate.parse_datetime`
splits on the designator `T` into exactly one date and one time part and
parses both; the error value carries the `ISO8601Error` message text (the
source only ever interpolates that text into a diagnostic). -/
def parse_datetime (s : String) : Except String IsoDatetime :=
  match splitOnChar 'T' s.data with
  | [d, t] =>
    if parse_date d then
      match parse_time t with
      | some tz => .ok { tzinfo := tz }
      | Option.none => .error ("Unrecognised ISO 8601 time format: " ++ String.mk t)
    else .error ("Unrecognised ISO 8601 date format: " ++ String.mk d)
  | _ => .error ("ISO 8601 time designator missing or found several times in " ++ s)

/-- Digits optionally followed by one final newline: the suffix accepted
after `R` by Python's `re.match('^R\d*$', s)`.  Python's `$` (without
`re.MULTILINE`) matches at the end of the string or just before a single
trailing newline, so `\d*$` accepts a digit run that is the whole remainder
or is followed by exactly one terminal `'\n'`. -/
def digitsThenOptNewline : List Char → Bool
  | [] => true
  | c :: cs =>
    if c.isDigit then digitsThenOptNewline cs
    else c = '\n' && cs.isEmpty

-- A valid 'repeat_string' is 'R' or 'Rn'; the source tests it with
-- re.compile('^R\d*$').match(repeat_string) under Python re semantics.
def _check_schedule_repeat_helper (repeat_string : String) : Bool :=
  match repeat_string.data with
  | 'R' :: rest => digitsThenOptNewline rest
  | _ => false

/-- Follows the spec's words (for comparison with the source helper): the
repeat part is the character `R` optionally followed by digits and nothing
else. -/
def spec_repeat_pattern (s : String) : Bool :=
  match s.data with
  | 'R' :: t => t.all Char.isDigit
  | _ => false

/-- Exceptions the embedded fragment can raise. -/
inductive PyErr where
  | invalidChronosConfigError (msg : String)
  | typeError

-- In Marathon spaces are not allowed, in Chronos periods are not allowed;
-- the module uses a single space as the job-name separator.
def SPACER : String := " "

def get_job_id (service : String) (instance_name : String) (tag : Option String) : String :=
  let output := service ++ SPACER ++ instance_name
  match tag with
  | some t =>
    -- Python `if tag:` — an empty tag string is falsy and leaves the
    -- two-component name.
    if t = "" then output else service ++ SPACER ++ instance_name ++ SPACER ++ t
  | Option.none => output

/-- The revision tag minted by `create_complete_config`:
`tag = "%s%s%s" % (code_sha, SPACER, config_hash)`. -/
def revision_tag (code_sha : String) (config_hash : String) : String :=
  code_sha ++ SPACER ++ config_hash

/-- `ChronosJobConfig`: the raw `config_dict` plus the results of every
collaborator the methods of the class consult.  Fields below the dict are
modelled from the spec: they stand for the shared `InstanceConfig` base
class, the monitoring owner lookup and the deployment branch record, all of
which live outside this module. -/
structure ChronosJobConfig where
  service_name : String
  job_name : String
  config_dict : List (String × PyVal)
  /-- Modelled from the spec: messages produced by the shared
  `InstanceConfig.validate()` of the external base class. -/
  super_validate_msgs : List String
  /-- Modelled from the spec: result of the inherited `check_cpus`. -/
  check_cpus : Bool × String
  /-- Modelled from the spec: result of the inherited `check_mem`. -/
  check_mem : Bool × String
  /-- Modelled from the spec: the inherited `get_mem()` accessor. -/
  instance_mem : PyVal
  /-- Modelled from the spec: the inherited `get_cpus()` accessor. -/
  instance_cpus : PyVal
  /-- Modelled from the spec: the inherited `get_cmd()` accessor. -/
  cmd : PyVal
  /-- Modelled from the spec: `get_owner()`, the team email address from the
  external monitoring tools. -/
  owner : String
  /-- Modelled from the spec: the desired run state resolved from the
  deployment branch record by the inherited `get_desired_state()`. -/
  desired_state : String

def get_args (cfg : ChronosJobConfig) : PyVal :=
  dictGetD cfg.config_dict "args" PyVal.none

def get_env (cfg : ChronosJobConfig) : PyVal :=
  dictGetD cfg.config_dict "env" (PyVal.list [])

def get_constraints (cfg : ChronosJobConfig) : PyVal :=
  dictGetD cfg.config_dict "constraints" PyVal.none

def get_epsilon (cfg : ChronosJobConfig) : PyVal :=
  dictGetD cfg.config_dict "epsilon" (PyVal.str "PT60S")

def get_retries (cfg : ChronosJobConfig) : PyVal :=
  dictGetD cfg.config_dict "retries" (PyVal.int 2)

def get_disabled (cfg : ChronosJobConfig) : PyVal :=
  dictGetD cfg.config_dict "disabled" (PyVal.bool false)

def get_schedule (cfg : ChronosJobConfig) : PyVal :=
  dictGetD cfg.config_dict "schedule" PyVal.none

def get_schedule_time_zone (cfg : ChronosJobConfig) : PyVal :=
  dictGetD cfg.config_dict "schedule_time_zone" PyVal.none

def check_epsilon (cfg : ChronosJobConfig) : Except PyErr (Bool × String) :=
  match get_epsilon cfg with
  | PyVal.str epsilon =>
    if parse_duration epsilon then .ok (true, "")
    else .ok (false, "The specified epsilon value \"" ++ epsilon ++ "\" does not conform to the ISO8601 format.")
  | _ =>
    -- isodate.parse_duration raises TypeError on a non-string, which the
    -- except clause (ISO8601Error only) does not catch.
    .error PyErr.typeError

/-- Python `str(value)` for the values this module interpolates with `%s`. -/
def pyStr : PyVal → String
  | PyVal.str s => s
  | PyVal.int n => toString n
  | PyVal.bool b => cond b "True" "False"
  | PyVal.none => "None"
  | PyVal.list _ => "[...]"

def check_retries (cfg : ChronosJobConfig) : Bool × String :=
  match get_retries cfg with
  | PyVal.none => (true, "")
  | PyVal.int _ => (true, "")
  -- bool is a subclass of int in Python, so isinstance(retries, int) holds.
  | PyVal.bool _ => (true, "")
  | v => (false, "The specified retries value \"" ++ pyStr v ++ "\" is not a valid int.")

/-- The body of `check_schedule` for a string-valued schedule. -/
def check_schedule_parts (schedule : String) : Bool × String :=
  match splitOnChar '/' schedule.data with
  | [rp, sp, ip] =>
    let repeat_s := String.mk rp
    let start_time := String.mk sp
    let interval := String.mk ip
    -- an empty start time is not valid ISO8601 but Chronos accepts it:
    -- '' == current time
    let start_msgs :=
      if start_time = "" then
        ["The specified schedule \"" ++ schedule ++ "\" does not contain a start time"]
      else
        match parse_datetime start_time with
        | .ok dt =>
          if !hasattr_tzinfo dt then
            ["The specified start time \"" ++ start_time ++ "\" must contain a time zone"]
          else []
        | .error exc =>
          ["The specified start time \"" ++ start_time ++ "\" in schedule \"" ++ schedule ++
           "\" does not conform to the ISO 8601 format:\n" ++ exc]
    let interval_msgs :=
      if parse_duration interval then []
      else ["The specified interval \"" ++ interval ++ "\" in schedule \"" ++ schedule ++
            "\" does not conform to the ISO 8601 format."]
    let repeat_msgs :=
      if _check_schedule_repeat_helper repeat_s then []
      else ["The specified repeat \"" ++ repeat_s ++ "\" in schedule \"" ++ schedule ++
            "\" does not conform to the ISO 8601 format."]
    let msgs := start_msgs ++ interval_msgs ++ repeat_msgs
    (msgs.isEmpty, joinWith "\n" msgs)
  | _ => (false, "The specified schedule \"" ++ schedule ++ "\" is invalid")

def check_schedule (cfg : ChronosJobConfig) : Except PyErr (Bool × String) :=
  match get_schedule cfg with
  | PyVal.str schedule => .ok (check_schedule_parts schedule)
  | PyVal.none => .ok (false, "You must specify a \"schedule\" in your configuration")
  | _ =>
    -- str.split on a non-string raises TypeError.
    .error PyErr.typeError

def check_schedule_time_zone (_cfg : ChronosJobConfig) : Bool × String :=
  -- the validator is a deliberate no-op in the source: it returns
  -- (True, '') whether or not a time zone is configured.
  (true, "")

def check (cfg : ChronosJobConfig) (param : String) : Except PyErr (Bool × String) :=
  -- the source dispatches through the check_methods dict and the
  -- supported_params_without_checks list.
  match param with
  | "epsilon" => check_epsilon cfg
  | "retries" => .ok (check_retries cfg)
  | "cpus" => .ok cfg.check_cpus
  | "mem" => .ok cfg.check_mem
  | "schedule" => check_schedule cfg
  | "scheduleTimeZone" => .ok (check_schedule_time_zone cfg)
  | "description" | "command" | "owner" | "disabled" => .ok (true, "")
  | p => .ok (false, "Your Chronos config specifies \"" ++ p ++ "\", an unsupported parameter.")

/-- Messages of the failed checks, in order: the source loop appends
`check_msg` whenever `check_passed` is false. -/
def failed_msgs (checks : List (Bool × String)) : List String :=
  checks.filterMap (fun cr => if cr.1 then Option.none else some cr.2)

def validate (cfg : ChronosJobConfig) : Except PyErr (Bool × List String) :=
  -- the source iterates the literal list
  -- ['epsilon', 'retries', 'cpus', 'mem', 'schedule', 'scheduleTimeZone'];
  -- the loop is unrolled here and an exception from any check propagates.
  match check cfg "epsilon" with
  | .error e => .error e
  | .ok ce =>
    match check cfg "retries" with
    | .error e => .error e
    | .ok cr =>
      match check cfg "cpus" with
      | .error e => .error e
      | .ok cc =>
        match check cfg "mem" with
        | .error e => .error e
        | .ok cm =>
          match check cfg "schedule" with
          | .error e => .error e
          | .ok cs =>
            match check cfg "scheduleTimeZone" with
            | .error e => .error e
            | .ok cz =>
              let error_msgs := cfg.super_validate_msgs ++ failed_msgs [ce, cr, cc, cm, cs, cz]
              .ok (error_msgs.isEmpty, error_msgs)

/-- The complete job dictionary POSTed to Chronos. -/
structure ChronosPayload where
  name : String
  container_image : String
  container_network : String
  container_type : String
  container_volumes : List PyVal
  environmentVariables : PyVal
  mem : PyVal
  cpus : PyVal
  constraints : PyVal
  command : PyVal
  arguments : PyVal
  epsilon : PyVal
  retries : PyVal
  async : Bool
  disabled : PyVal
  owner : String
  schedule : PyVal
  scheduleTimeZone : PyVal

def format_chronos_job_dict (cfg : ChronosJobConfig) (docker_url : String)
    (docker_volumes : List PyVal) : Except PyErr ChronosPayload :=
  match validate cfg with
  | .error e => .error e
  | .ok (valid, error_msgs) =>
    if valid then
      .ok
        { name := cfg.job_name
          container_image := docker_url
          container_network := "BRIDGE"
          container_type := "DOCKER"
          container_volumes := docker_volumes
          environmentVariables := get_env cfg
          mem := cfg.instance_mem
          cpus := cfg.instance_cpus
          constraints := get_constraints cfg
          command := cfg.cmd
          arguments := get_args cfg
          epsilon := get_epsilon cfg
          retries := get_retries cfg
          -- we don't support async jobs
          async := false
          disabled := get_disabled cfg
          owner := cfg.owner
          schedule := get_schedule cfg
          scheduleTimeZone := get_schedule_time_zone cfg }
    else
      .error (PyErr.invalidChronosConfigError (joinWith "\n" error_msgs))

/-- `create_complete_config`, with the externally resolved collaborators
(`get_code_sha_from_dockerurl` and `get_config_hash` from the shared utils
module) passed in as functions. -/
def create_complete_config (get_code_sha : String → String)
    (get_config_hash : ChronosPayload → String) (cfg : ChronosJobConfig)
    (docker_url : String) (volumes : List PyVal) : Except PyErr ChronosPayload :=
  match format_chronos_job_dict cfg docker_url volumes with
  | .error e => .error e
  | .ok complete_config =>
    let code_sha := get_code_sha docker_url
    let config_hash := get_config_hash complete_config
    -- Chronos clears the history for a job whenever it is updated, so a new
    -- job name is minted for each revision.
    let tag := revision_tag code_sha config_hash
    let full_id := get_job_id cfg.service_name cfg.job_name (some tag)
    let cc := { complete_config with name := full_id }
    -- If the job was previously stopped, the new job is stopped as well.
    .ok (if cfg.desired_state = "start" then { cc with disabled := PyVal.bool false }
         else if cfg.desired_state = "stop" then { cc with disabled := PyVal.bool true }
         else cc)

/-- A job record as reported by the Chronos client: the fields the lookup
consults. -/
structure ChronosJob where
  name : String
  disabled : Bool
deriving DecidableEq

/-- The filtering loop of `lookup_chronos_jobs`: keep jobs whose name the
compiled pattern matches, dropping disabled jobs unless they are included. -/
def matching_jobs_loop (regexp : String → Bool) (include_disabled : Bool) :
    List ChronosJob → List ChronosJob
  | [] => []
  | job :: rest =>
    let tail := matching_jobs_loop regexp include_disabled rest
    if regexp job.name then
      if job.disabled && !include_disabled then tail else job :: tail
    else tail

def lookup_err_msg (found : Nat) (pattern : String) (max_expected : Int)
    (ids : List String) : String :=
  "Found " ++ toString found ++ " jobs for pattern \x27" ++ pattern ++
  "\x27, but max_expected is set to " ++ toString max_expected ++
  " (ids: " ++ joinWith ", " ids ++ ")"

/-- `lookup_chronos_jobs`.  The compiled regex is passed as `compiled`
(`none` models a pattern `re.compile` rejects); the job listing is the
client's `list()` result. -/
def lookup_chronos_jobs (pattern : String) (compiled : Option (String → Bool))
    (jobs : List ChronosJob) (max_expected : Option Int)
    (include_disabled : Bool) : Except String (List ChronosJob) :=
  match compiled with
  | Option.none => .error ("Invalid regex pattern \x27" ++ pattern ++ "\x27")
  | some regexp =>
    let matching_jobs := matching_jobs_loop regexp include_disabled jobs
    match max_expected with
    | some m =>
      -- Python `if max_expected and len(matching_jobs) > max_expected:` —
      -- a zero ceiling is falsy and skips the guard entirely.
      if m ≠ 0 ∧ (matching_jobs.length : Int) > m then
        .error (lookup_err_msg matching_jobs.length pattern m
          (matching_jobs.map (fun j => j.name)))
      else .ok matching_jobs
    | Option.none => .ok matching_jobs

/-! ### Shared concrete configurations and helper lemmas -/

/-- A well-formed job configuration: one schedule field, all external
collaborator checks passing. -/
def plain_cfg : ChronosJobConfig :=
  { service_name := "svc"
    job_name := "job"
    config_dict := [("schedule", PyVal.str "R/2020-01-01T00:00:00/PT1H")]
    super_validate_msgs := []
    check_cpus := (true, "")
    check_mem := (true, "")
    instance_mem := PyVal.int 1024
    instance_cpus := PyVal.int 1
    cmd := PyVal.none
    owner := "o"
    desired_state := "" }

lemma isEmpty_append_cons (l1 : List String) (x : String) (l2 : List String) :
    (l1 ++ x :: l2).isEmpty = false := by
  cases l1 <;> rfl

/-! ### C1 -/

/-- C1: when `validate()` fails, `format_chronos_job_dict` raises
`InvalidChronosConfigError` carrying the newline-joined list of every
accumulated validation message, and returns no payload (no payload field is
populated). -/
theorem format_chronos_job_dict_invalid_raises
    (cfg : ChronosJobConfig) (docker_url : String) (docker_volumes : List PyVal)
    (msgs : List String) (h : validate cfg = .ok (false, msgs)) :
    format_chronos_job_dict cfg docker_url docker_volumes =
      .error (PyErr.invalidChronosConfigError (joinWith "\n" msgs)) := by
  unfold format_chronos_job_dict
  rw [h]
  rfl

/-- A configuration with an unparseable epsilon and no schedule. -/
def invalid_epsilon_cfg : ChronosJobConfig :=
  { plain_cfg with config_dict := [("epsilon", PyVal.str "bad")] }

/-- Witness for C1 at a concrete invalid configuration. -/
theorem format_chronos_job_dict_invalid_raises_witness :
    format_chronos_job_dict invalid_epsilon_cfg "docker" [] =
      .error (PyErr.invalidChronosConfigError (joinWith "\n"
        ["The specified epsilon value \"bad\" does not conform to the ISO8601 format.",
         "You must specify a \"schedule\" in your configuration"])) :=
  format_chronos_job_dict_invalid_raises invalid_epsilon_cfg "docker" [] _ rfl

/-! ### C2 -/

/-- C2: a start time that parses as an ISO-8601 datetime *without* timezone
information does not produce the "must contain a time zone" diagnostic: the
source guards the diagnostic with `not hasattr(dt, 'tzinfo')`, and every
`datetime` object has a `tzinfo` attribute, so the check passes cleanly on a
naive start time. -/
theorem check_schedule_accepts_tzless_start_time :
    parse_datetime "2020-01-01T00:00:00" = .ok { tzinfo := Option.none } ∧
    check_schedule plain_cfg = .ok (true, "") :=
  ⟨rfl, rfl⟩

/-! ### C3 -/

/-- A configuration whose schedule has an empty start-time part. -/
def empty_start_cfg : ChronosJobConfig :=
  { plain_cfg with config_dict := [("schedule", PyVal.str "R//PT1H")] }

/-- C3 counterexample: with valid repeat and interval parts and an empty
start time the check emits the missing-start-time diagnostic *and returns
fail*, because the overall verdict is `len(msgs) == 0`; the claim says the
check still returns pass. -/
theorem check_schedule_empty_start_returns_fail :
    check_schedule empty_start_cfg =
      .ok (false, "The specified schedule \"R//PT1H\" does not contain a start time") :=
  rfl

/-- C3 (amended): for a three-part schedule with an empty start-time part and
valid repeat and interval parts, the check emits exactly the
missing-start-time diagnostic and — since overall pass is "no diagnostics
accumulated" — the whole check returns fail. -/
theorem check_schedule_empty_start_diagnostic
    (cfg : ChronosJobConfig) (sched : String) (rp ip : List Char)
    (h : get_schedule cfg = PyVal.str sched)
    (hsplit : splitOnChar '/' sched.data = [rp, [], ip])
    (hr : _check_schedule_repeat_helper (String.mk rp) = true)
    (hi : parse_duration (String.mk ip) = true) :
    check_schedule cfg =
      .ok (false, "The specified schedule \"" ++ sched ++ "\" does not contain a start time") := by
  have hstep : check_schedule cfg = .ok (check_schedule_parts sched) := by
    unfold check_schedule
    rw [h]
  rw [hstep]
  unfold check_schedule_parts
  rw [hsplit]
  simp only [hr, hi]
  rfl

/-- Witness for C3 (amended) at the concrete schedule `R//PT1H`. -/
theorem check_schedule_empty_start_diagnostic_witness :
    splitOnChar '/' ("R//PT1H" : String).data = [['R'], [], ['P', 'T', '1', 'H']] ∧
    check_schedule empty_start_cfg =
      .ok (false, "The specified schedule \"R//PT1H\" does not contain a start time") :=
  ⟨rfl, check_schedule_empty_start_diagnostic empty_start_cfg "R//PT1H"
    ['R'] ['P', 'T', '1', 'H'] rfl rfl rfl rfl⟩

/-! ### C4 -/

/-- The message list `validate` accumulates: the shared instance-config
messages followed by the messages of the failed parameter checks, in the
order `epsilon, retries, cpus, mem, schedule, scheduleTimeZone`. -/
def checks_msgs (cfg : ChronosJobConfig) (ce cr cs : Bool × String) : List String :=
  cfg.super_validate_msgs ++
    failed_msgs [ce, cr, cfg.check_cpus, cfg.check_mem, cs, check_schedule_time_zone cfg]

/-- C4: when the epsilon check and the retries check both fail, `validate`
returns overall failure together with a message list that aggregates the
results of all six parameter checks and contains both failure messages —
validation does not short-circuit at the first failing field. -/
theorem validate_reports_all_failures
    (cfg : ChronosJobConfig) (m1 m2 : String) (sres : Bool × String)
    (h1 : check_epsilon cfg = .ok (false, m1))
    (h2 : check_retries cfg = (false, m2))
    (hs : check_schedule cfg = .ok sres) :
    validate cfg = .ok (false, checks_msgs cfg (false, m1) (false, m2) sres) ∧
    m1 ∈ checks_msgs cfg (false, m1) (false, m2) sres ∧
    m2 ∈ checks_msgs cfg (false, m1) (false, m2) sres := by
  have key : checks_msgs cfg (false, m1) (false, m2) sres =
      cfg.super_validate_msgs ++ m1 :: m2 ::
        failed_msgs [cfg.check_cpus, cfg.check_mem, sres, check_schedule_time_zone cfg] := rfl
  refine ⟨?_, ?_, ?_⟩
  · have he : check cfg "epsilon" = .ok (false, m1) := h1
    have hr : check cfg "retries" = .ok (false, m2) := by
      show Except.ok (check_retries cfg) = _
      rw [h2]
    have hsc : check cfg "schedule" = .ok sres := hs
    unfold validate
    rw [he, hr, hsc]
    show Except.ok ((checks_msgs cfg (false, m1) (false, m2) sres).isEmpty,
      checks_msgs cfg (false, m1) (false, m2) sres) = _
    rw [key, isEmpty_append_cons]
  · rw [key]
    exact List.mem_append_right _ (List.mem_cons_self _ _)
  · rw [key]
    exact List.mem_append_right _ (List.mem_cons_of_mem _ (List.mem_cons_self _ _))

/-- A configuration with a bad epsilon and a bad retries value at once. -/
def two_failures_cfg : ChronosJobConfig :=
  { plain_cfg with config_dict :=
      [("epsilon", PyVal.str "foo"), ("retries", PyVal.str "a"),
       ("schedule", PyVal.str "R/2020-01-01T00:00:00Z/PT1H")] }

/-- Witness for C4: both failure messages come back in one pass. -/
theorem validate_reports_all_failures_witness :
    validate two_failures_cfg = .ok (false,
      ["The specified epsilon value \"foo\" does not conform to the ISO8601 format.",
       "The specified retries value \"a\" is not a valid int."]) :=
  (validate_reports_all_failures two_failures_cfg _ _ (true, "") rfl rfl rfl).1.trans rfl

/-! ### C5 -/

/-- A configuration carrying the unrecognized field name `retriesx` next to a
valid schedule. -/
def unknown_field_cfg : ChronosJobConfig :=
  { plain_cfg with config_dict :=
      [("retriesx", PyVal.int 3), ("schedule", PyVal.str "R/2020-01-01T00:00:00Z/PT1H")] }

/-- C5: the raw specification contains the unrecognized field name
`retriesx`, and `check` called on that name does return the unsupported-
parameter failure — but `validate` only ever checks the six fixed parameter
names, never the raw keys, so the specification passes validation and the
typo guard is dead code. -/
theorem validate_ignores_unsupported_field :
    dictGet unknown_field_cfg.config_dict "retriesx" = some (PyVal.int 3) ∧
    validate unknown_field_cfg = .ok (true, []) ∧
    check unknown_field_cfg "retriesx" =
      .ok (false, "Your Chronos config specifies \"retriesx\", an unsupported parameter.") :=
  ⟨rfl, rfl, rfl⟩

/-! ### C6 -/

/-- C6 counterexample: with a supplied maximum-expected-count of `0` and one
kept job, the kept count exceeds the maximum, yet the query *succeeds* and
returns the job: Python's `if max_expected and ...` treats the supplied
ceiling `0` as falsy and skips the guard. -/
theorem lookup_chronos_jobs_zero_ceiling_no_failure :
    lookup_chronos_jobs "foo" (some (fun _ => true)) [⟨"foo bar", false⟩] (some 0) false =
      .ok [⟨"foo bar", false⟩] ∧
    ((matching_jobs_loop (fun _ => true) false [⟨"foo bar", false⟩]).length : Int) > 0 :=
  ⟨rfl, by decide⟩

/-- C6 (amended): when a *nonzero* maximum-expected-count is supplied and the
kept count exceeds it, the query fails with the error message that names
every matching job's identifier. -/
theorem lookup_chronos_jobs_exceeding_nonzero_max_fails
    (pattern : String) (regexp : String → Bool) (jobs : List ChronosJob)
    (m : Int) (include_disabled : Bool)
    (hm : m ≠ 0)
    (hlen : ((matching_jobs_loop regexp include_disabled jobs).length : Int) > m) :
    lookup_chronos_jobs pattern (some regexp) jobs (some m) include_disabled =
      .error (lookup_err_msg (matching_jobs_loop regexp include_disabled jobs).length pattern m
        ((matching_jobs_loop regexp include_disabled jobs).map (fun j => j.name))) := by
  have hred : lookup_chronos_jobs pattern (some regexp) jobs (some m) include_disabled =
      (if m ≠ 0 ∧ ((matching_jobs_loop regexp include_disabled jobs).length : Int) > m then
        Except.error (lookup_err_msg (matching_jobs_loop regexp include_disabled jobs).length
          pattern m ((matching_jobs_loop regexp include_disabled jobs).map (fun j => j.name)))
      else Except.ok (matching_jobs_loop regexp include_disabled jobs)) := rfl
  rw [hred, if_pos ⟨hm, hlen⟩]

/-- Witness for C6 (amended) on a two-job listing with ceiling 1. -/
theorem lookup_chronos_jobs_exceeding_nonzero_max_fails_witness :
    lookup_chronos_jobs "foo" (some (fun _ => true))
        [⟨"foo bar", false⟩, ⟨"foo baz", true⟩] (some 1) true =
      .error "Found 2 jobs for pattern \x27foo\x27, but max_expected is set to 1 (ids: foo bar, foo baz)" :=
  (lookup_chronos_jobs_exceeding_nonzero_max_fails "foo" (fun _ => true)
    [⟨"foo bar", false⟩, ⟨"foo baz", true⟩] 1 true (by decide) (by decide)).trans rfl

/-! ### C7 and C10 -/

/-- The scheduler-facing name stamped onto the payload by
`create_complete_config`. -/
def stamped_name (get_code_sha : String → String) (get_config_hash : ChronosPayload → String)
    (cfg : ChronosJobConfig) (docker_url : String) (q : ChronosPayload) : String :=
  get_job_id cfg.service_name cfg.job_name
    (some (revision_tag (get_code_sha docker_url) (get_config_hash q)))

lemma create_complete_config_err (gcs : String → String) (gch : ChronosPayload → String)
    (cfg : ChronosJobConfig) (docker_url : String) (volumes : List PyVal) (e : PyErr)
    (hf : format_chronos_job_dict cfg docker_url volumes = .error e) :
    create_complete_config gcs gch cfg docker_url volumes = .error e := by
  unfold create_complete_config
  rw [hf]

lemma create_complete_config_ok (gcs : String → String) (gch : ChronosPayload → String)
    (cfg : ChronosJobConfig) (docker_url : String) (volumes : List PyVal) (q : ChronosPayload)
    (hf : format_chronos_job_dict cfg docker_url volumes = .ok q) :
    create_complete_config gcs gch cfg docker_url volumes =
      .ok (if cfg.desired_state = "start" then
            { q with name := stamped_name gcs gch cfg docker_url q, disabled := PyVal.bool false }
          else if cfg.desired_state = "stop" then
            { q with name := stamped_name gcs gch cfg docker_url q, disabled := PyVal.bool true }
          else { q with name := stamped_name gcs gch cfg docker_url q }) := by
  unfold create_complete_config
  rw [hf]
  rfl

lemma format_ok_disabled (cfg : ChronosJobConfig) (docker_url : String)
    (volumes : List PyVal) (q : ChronosPayload)
    (hf : format_chronos_job_dict cfg docker_url volumes = .ok q) :
    q.disabled = get_disabled cfg := by
  unfold format_chronos_job_dict at hf
  cases hv : validate cfg with
  | error e => rw [hv] at hf; exact Except.noConfusion hf
  | ok p =>
    rw [hv] at hf
    obtain ⟨valid, msgs⟩ := p
    cases valid with
    | false => exact Except.noConfusion hf
    | true =>
      have := Except.ok.inj hf
      rw [← this]

/-- C7: for any payload successfully built by `create_complete_config`, a
desired run state of "stop" forces `disabled = True` and "start" forces
`disabled = False`, whatever the specification's own disabled field said. -/
theorem create_complete_config_desired_state_overrides_disabled
    (gcs : String → String) (gch : ChronosPayload → String) (cfg : ChronosJobConfig)
    (docker_url : String) (volumes : List PyVal) (p : ChronosPayload)
    (h : create_complete_config gcs gch cfg docker_url volumes = .ok p) :
    (cfg.desired_state = "stop" → p.disabled = PyVal.bool true) ∧
    (cfg.desired_state = "start" → p.disabled = PyVal.bool false) := by
  cases hf : format_chronos_job_dict cfg docker_url volumes with
  | error e =>
    rw [create_complete_config_err gcs gch cfg docker_url volumes e hf] at h
    exact Except.noConfusion h
  | ok q =>
    rw [create_complete_config_ok gcs gch cfg docker_url volumes q hf] at h
    have hp := Except.ok.inj h
    constructor
    · intro hds
      rw [hds] at hp
      rw [if_neg (by decide), if_pos rfl] at hp
      rw [← hp]
    · intro hds
      rw [hds] at hp
      rw [if_pos rfl] at hp
      rw [← hp]

/-- A valid configuration whose own disabled field is `False` but whose
desired run state is "stop". -/
def stop_cfg : ChronosJobConfig :=
  { plain_cfg with
      config_dict := [("schedule", PyVal.str "R/2020-01-01T00:00:00/PT1H"),
                      ("disabled", PyVal.bool false)]
      desired_state := "stop" }

/-- The payload `create_complete_config` builds for `stop_cfg`. -/
def stop_payload : ChronosPayload :=
  { name := "svc job sha hash"
    container_image := "u"
    container_network := "BRIDGE"
    container_type := "DOCKER"
    container_volumes := []
    environmentVariables := PyVal.list []
    mem := PyVal.int 1024
    cpus := PyVal.int 1
    constraints := PyVal.none
    command := PyVal.none
    arguments := PyVal.none
    epsilon := PyVal.str "PT60S"
    retries := PyVal.int 2
    async := false
    disabled := PyVal.bool true
    owner := "o"
    schedule := PyVal.str "R/2020-01-01T00:00:00/PT1H"
    scheduleTimeZone := PyVal.none }

/-- Witness for C7: the raw specification says `disabled = False`, the
desired state "stop" flips the built payload to `disabled = True`. -/
theorem create_complete_config_desired_state_overrides_disabled_witness :
    create_complete_config (fun _ => "sha") (fun _ => "hash") stop_cfg "u" [] =
      .ok stop_payload ∧
    stop_payload.disabled = PyVal.bool true :=
  ⟨rfl, (create_complete_config_desired_state_overrides_disabled (fun _ => "sha")
    (fun _ => "hash") stop_cfg "u" [] stop_payload rfl).1 rfl⟩

/-- C10: when the desired run state is neither "start" nor "stop",
`create_complete_config` returns the formatted payload with *only* the name
replaced by the stamped revision name — the disabled flag (and every other
field) is exactly what `format_chronos_job_dict` produced, the disabled flag
equals the specification's own value, and that value defaults to `False`
when the field is absent. -/
theorem create_complete_config_frame
    (gcs : String → String) (gch : ChronosPayload → String) (cfg : ChronosJobConfig)
    (docker_url : String) (volumes : List PyVal)
    (h1 : cfg.desired_state ≠ "start") (h2 : cfg.desired_state ≠ "stop") :
    (∀ q, format_chronos_job_dict cfg docker_url volumes = .ok q →
      create_complete_config gcs gch cfg docker_url volumes =
        .ok { q with name := stamped_name gcs gch cfg docker_url q } ∧
      q.disabled = get_disabled cfg) ∧
    (dictGet cfg.config_dict "disabled" = Option.none → get_disabled cfg = PyVal.bool false) := by
  constructor
  · intro q hq
    constructor
    · rw [create_complete_config_ok gcs gch cfg docker_url volumes q hq,
        if_neg h1, if_neg h2]
    · exact format_ok_disabled cfg docker_url volumes q hq
  · intro hnone
    unfold get_disabled dictGetD
    rw [hnone]
    rfl

/-- The payload `format_chronos_job_dict` builds for `plain_cfg`. -/
def plain_fmt_payload : ChronosPayload :=
  { stop_payload with
      name := "job"
      disabled := PyVal.bool false }

/-- Witness for C10: for `plain_cfg` (desired state neither "start" nor
"stop", no disabled field) the complete config is the formatted payload with
only the name re-stamped, and the disabled flag stays at the default
`False`. -/
theorem create_complete_config_frame_witness :
    create_complete_config (fun _ => "sha") (fun _ => "hash") plain_cfg "u" [] =
      .ok { plain_fmt_payload with name := "svc job sha hash" } ∧
    plain_fmt_payload.disabled = get_disabled plain_cfg ∧
    get_disabled plain_cfg = PyVal.bool false := by
  have H := create_complete_config_frame (fun _ => "sha") (fun _ => "hash")
    plain_cfg "u" [] (by decide) (by decide)
  exact ⟨(H.1 plain_fmt_payload rfl).1, (H.1 plain_fmt_payload rfl).2, H.2 rfl⟩

/-! ### C8 -/

lemma sep_split_unique (c : Char) :
    ∀ (a : List Char), c ∉ a → ∀ (a' : List Char), c ∉ a' →
      ∀ (b b' : List Char), a ++ c :: b = a' ++ c :: b' → a = a' ∧ b = b' := by
  intro a
  induction a with
  | nil =>
    intro _ a' ha' b b' h
    cases a' with
    | nil =>
      injection h with _ h2
      exact ⟨rfl, h2⟩
    | cons x xs =>
      injection h with h1 _
      subst h1
      exact absurd (List.mem_cons_self _ _) ha'
  | cons x xs ih =>
    intro ha a' ha' b b' h
    cases a' with
    | nil =>
      injection h with h1 _
      subst h1
      exact absurd (List.mem_cons_self _ _) ha
    | cons y ys =>
      injection h with h1 h2
      have hxs : c ∉ xs := fun hm => ha (List.mem_cons_of_mem _ hm)
      have hys : c ∉ ys := fun hm => ha' (List.mem_cons_of_mem _ hm)
      obtain ⟨e1, e2⟩ := ih hxs ys hys b b' h2
      exact ⟨by rw [h1, e1], e2⟩

lemma revision_tag_data (a b : String) :
    (revision_tag a b).data = a.data ++ ' ' :: b.data := by
  unfold revision_tag SPACER
  rw [String.data_append, String.data_append]
  simp

/-- C8 (amended): identical (code identifier, config hash) pairs always give
the same revision tag, and as long as the components are free of the
space separator any change to either component changes the tag; the
scheduler-facing name composed by `get_job_id` for a nonempty tag is
`service + " " + job + " " + tag`. -/
theorem revision_tag_injective_and_job_naming :
    (∀ a b a' b' : String, ' ' ∉ a.data → ' ' ∉ a'.data →
      (revision_tag a b = revision_tag a' b' ↔ (a = a' ∧ b = b'))) ∧
    (∀ service job tag : String, tag ≠ "" →
      get_job_id service job (some tag) = service ++ SPACER ++ job ++ SPACER ++ tag) := by
  constructor
  · intro a b a' b' ha ha'
    constructor
    · intro h
      have hd : a.data ++ ' ' :: b.data = a'.data ++ ' ' :: b'.data := by
        rw [← revision_tag_data, ← revision_tag_data, h]
      obtain ⟨e1, e2⟩ := sep_split_unique ' ' a.data ha a'.data ha' b.data b'.data hd
      exact ⟨String.ext e1, String.ext e2⟩
    · rintro ⟨rfl, rfl⟩
      rfl
  · intro service job tag ht
    have hred : get_job_id service job (some tag) =
        if tag = "" then service ++ SPACER ++ job
        else service ++ SPACER ++ job ++ SPACER ++ tag := rfl
    rw [hred, if_neg ht]

/-- C8 counterexample: with components that may themselves contain the
space separator, two different (image identifier, config hash) pairs
collide on the same revision tag, so "any change to either component yields
a different tag" fails for arbitrary opaque strings. -/
theorem revision_tag_collision :
    revision_tag "a b" "c" = revision_tag "a" "b c" ∧ ¬("a b" = "a" ∧ "c" = "b c") :=
  ⟨rfl, by decide⟩

/-- Witness for C8 (amended) on concrete space-free components. -/
theorem revision_tag_injective_and_job_naming_witness :
    (revision_tag "gitsha" "confA" = revision_tag "gitsha" "confB" ↔
      ("gitsha" = "gitsha" ∧ "confA" = "confB")) ∧
    get_job_id "svc" "job" (some "gitsha confA") = "svc job gitsha confA" :=
  ⟨revision_tag_injective_and_job_naming.1 "gitsha" "confA" "gitsha" "confB"
      (by decide) (by decide),
   (revision_tag_injective_and_job_naming.2 "svc" "job" "gitsha confA" (by decide)).trans rfl⟩

/-! ### C9 -/

lemma repeat_helper_R (rest : List Char) :
    _check_schedule_repeat_helper (String.mk ('R' :: rest)) = digitsThenOptNewline rest :=
  rfl

lemma repeat_helper_not_R (c : Char) (cs : List Char) (hc : c ≠ 'R') :
    _check_schedule_repeat_helper (String.mk (c :: cs)) = false := by
  unfold _check_schedule_repeat_helper
  split
  · next rest heq =>
    have h2 : c :: cs = 'R' :: rest := heq
    injection h2 with h1 _
    exact absurd h1 hc
  · rfl

lemma spec_repeat_R (t : List Char) :
    spec_repeat_pattern (String.mk ('R' :: t)) = t.all Char.isDigit :=
  rfl

lemma spec_repeat_not_R (c : Char) (cs : List Char) (hc : c ≠ 'R') :
    spec_repeat_pattern (String.mk (c :: cs)) = false := by
  unfold spec_repeat_pattern
  split
  · next rest heq =>
    have h2 : c :: cs = 'R' :: rest := heq
    injection h2 with h1 _
    exact absurd h1 hc
  · rfl

lemma digitsThenOptNewline_iff (t : List Char) :
    digitsThenOptNewline t = true ↔
      (t.all Char.isDigit = true ∨
        ∃ u, t = u ++ ['\n'] ∧ u.all Char.isDigit = true) := by
  induction t with
  | nil =>
    constructor
    · intro _
      exact Or.inl rfl
    · intro _
      rfl
  | cons c cs ih =>
    by_cases hc : c.isDigit = true
    · have hred : digitsThenOptNewline (c :: cs) = digitsThenOptNewline cs := by
        show (if c.isDigit then digitsThenOptNewline cs
              else (decide (c = '\n') && cs.isEmpty)) = _
        rw [if_pos hc]
      rw [hred, ih]
      constructor
      · rintro (h | ⟨u, rfl, hu⟩)
        · exact Or.inl (by rw [List.all_cons, hc, h]; rfl)
        · exact Or.inr ⟨c :: u, rfl, by rw [List.all_cons, hc, hu]; rfl⟩
      · rintro (h | ⟨u, hu1, hu2⟩)
        · rw [List.all_cons, Bool.and_eq_true] at h
          exact Or.inl h.2
        · cases u with
          | nil =>
            rw [List.nil_append] at hu1
            injection hu1 with h1 _
            rw [h1] at hc
            exact absurd hc (by decide)
          | cons d u2 =>
            rw [List.cons_append] at hu1
            injection hu1 with _ h2
            rw [List.all_cons, Bool.and_eq_true] at hu2
            exact Or.inr ⟨u2, h2, hu2.2⟩
    · have hred : digitsThenOptNewline (c :: cs) = (decide (c = '\n') && cs.isEmpty) := by
        show (if c.isDigit then digitsThenOptNewline cs
              else (decide (c = '\n') && cs.isEmpty)) = _
        rw [if_neg hc]
      rw [hred]
      constructor
      · intro h
        rw [Bool.and_eq_true, decide_eq_true_iff] at h
        obtain ⟨h1, h2⟩ := h
        have hcs : cs = [] := by
          cases cs with
          | nil => rfl
          | cons d ds => simp at h2
        refine Or.inr ⟨[], ?_, rfl⟩
        rw [h1, hcs]
        rfl
      · rintro (h | ⟨u, hu1, hu2⟩)
        · rw [List.all_cons, Bool.and_eq_true] at h
          exact absurd h.1 hc
        · cases u with
          | nil =>
            rw [List.nil_append] at hu1
            injection hu1 with h1 h2
            rw [h1, h2]
            rfl
          | cons d u2 =>
            rw [List.cons_append] at hu1
            injection hu1 with h1 _
            rw [List.all_cons, Bool.and_eq_true] at hu2
            rw [h1] at hc
            exact absurd hu2.1 hc

lemma string_eq_append_newline (s t : String) :
    s = t ++ "\n" ↔ s.data = t.data ++ ['\n'] := by
  constructor
  · intro h
    rw [h, String.data_append]
  · intro h
    apply String.ext
    rw [h, String.data_append]

/-- C9 (amended): the repeat check passes exactly when the string is `R`
optionally followed by digits and nothing else, *or* that same form followed
by one trailing newline — Python's `$` also matches just before a single
terminal newline; `R`, `R0`, `R5` pass, `Q5`, `r5`, `R5x` fail. -/
theorem repeat_helper_characterization :
    (∀ s : String, _check_schedule_repeat_helper s = true ↔
      (spec_repeat_pattern s = true ∨
        ∃ t : String, s = t ++ "\n" ∧ spec_repeat_pattern t = true)) ∧
    _check_schedule_repeat_helper "R" = true ∧
    _check_schedule_repeat_helper "R0" = true ∧
    _check_schedule_repeat_helper "R5" = true ∧
    _check_schedule_repeat_helper "Q5" = false ∧
    _check_schedule_repeat_helper "r5" = false ∧
    _check_schedule_repeat_helper "R5x" = false := by
  refine ⟨?_, rfl, rfl, rfl, rfl, rfl, rfl⟩
  intro s
  obtain ⟨l⟩ := s
  cases l with
  | nil =>
    constructor
    · intro h
      exact absurd h (by decide)
    · rintro (h | ⟨t, ht, hspec⟩)
      · exact absurd h (by decide)
      · obtain ⟨tl⟩ := t
        have h2 : ([] : List Char) = tl ++ ['\n'] :=
          (string_eq_append_newline (String.mk []) (String.mk tl)).mp ht
        exact absurd h2.symm (by simp)
  | cons c cs =>
    by_cases hc : c = 'R'
    · subst hc
      rw [repeat_helper_R cs, digitsThenOptNewline_iff]
      constructor
      · rintro (h | ⟨u, rfl, hu⟩)
        · exact Or.inl (by rw [spec_repeat_R]; exact h)
        · refine Or.inr ⟨String.mk ('R' :: u), ?_, ?_⟩
          · rw [string_eq_append_newline]
            show 'R' :: (u ++ ['\n']) = ('R' :: u) ++ ['\n']
            rfl
          · rw [spec_repeat_R]
            exact hu
      · rintro (h | ⟨t, ht, hspec⟩)
        · rw [spec_repeat_R] at h
          exact Or.inl h
        · obtain ⟨tl⟩ := t
          have hd : 'R' :: cs = tl ++ ['\n'] :=
            (string_eq_append_newline (String.mk ('R' :: cs)) (String.mk tl)).mp ht
          cases tl with
          | nil =>
            rw [List.nil_append] at hd
            injection hd with h1 _
            exact absurd h1 (by decide)
          | cons d ds =>
            rw [List.cons_append] at hd
            injection hd with h1 h3
            rw [← h1] at hspec
            rw [spec_repeat_R] at hspec
            exact Or.inr ⟨ds, h3, hspec⟩
    · rw [repeat_helper_not_R c cs hc]
      constructor
      · intro h
        exact absurd h (by decide)
      · rintro (h | ⟨t, ht, hspec⟩)
        · rw [spec_repeat_not_R c cs hc] at h
          exact absurd h (by decide)
        · obtain ⟨tl⟩ := t
          have hd : c :: cs = tl ++ ['\n'] :=
            (string_eq_append_newline (String.mk (c :: cs)) (String.mk tl)).mp ht
          cases tl with
          | nil =>
            exact absurd hspec (by decide)
          | cons d ds =>
            rw [List.cons_append] at hd
            injection hd with h1 _
            by_cases hd' : d = 'R'
            · rw [hd'] at h1
              exact absurd h1 hc
            · rw [spec_repeat_not_R d ds hd'] at hspec
              exact absurd hspec (by decide)

/-- C9 counterexample: `R5` followed by a trailing newline is accepted by the
source helper although it is not `R` followed only by digits. -/
theorem repeat_helper_accepts_trailing_newline :
    _check_schedule_repeat_helper "R5\n" = true ∧ spec_repeat_pattern "R5\n" = false :=
  ⟨rfl, rfl⟩

/-- Witness for C9 (amended): instantiating the characterization at `R42`. -/
theorem repeat_helper_characterization_witness :
    _check_schedule_repeat_helper "R42" = true :=
  (repeat_helper_characterization.1 "R42").mpr (Or.inl (by decide))
